import Mathlib

/-!
# Verification of the awsmfunc core (border balancing, crop/fill/resize, zone reader)

This file is a shallow embedding of the core of `awsmfunc.py`:

* the bit-depth scaling utility `scale` (awsmfunc.py lines 979-987);
* the per-sample data path of the border-balancing engine `bbmoda`/`btb`
  (lines 152-257), in particular the threshold-clamp stage built from
  `std.MakeDiff`, two `std.Expr` clamps and `std.MergeDiff` (lines 231-240),
  and the luma balancing expression `yexpr` (line 227);
* the geometry of the four-edge generalization (lines 248-255) on a `Plane`
  model of frames, with `std.Transpose` and `std.FlipHorizontal` translated
  exactly;
* the crop/fill/resize orchestrator `CropResize` (lines 317-444) as an
  `Except`-valued function computing the exact argument flow (validation,
  parity split, output dimensions, filter-graph nodes);
* the dirty-border-avoidance routine `BlackBorders` (lines 260-314);
* the zone-driven orchestrator `CropResizeReader` (lines 452-608) building a
  filter graph (`ClipExpr`) whose per-frame resolution `frameAt` models
  `fvf.ReplaceFramesSimple` splicing.

Machine integers are modeled as `ℤ`; Python `//` and `%` (floor division /
nonnegative remainder for positive divisors) coincide with Lean's `/` and `%`
on `ℤ` (`Int.ediv`/`Int.emod`) at every use site, all of which have positive
divisors.  Python `round` (round half to even) and the float-to-integer
conversion of VapourSynth's `std.Expr` (IEEE round to nearest, ties to even)
are modeled by `roundHalfEvenDiv` on exact fractions given as
numerator/denominator pairs of integers.  Fallible code returns
`Except String`.
-/

deriving instance DecidableEq for Except

/-- `scale` from awsmfunc.py lines 979-987 with `bits_in` at its default 8
(the only way the modeled code calls it):
`val * ((1 << bits) - 1) // ((1 << 8) - 1)`.  For the nonnegative divisor 255,
Python's floor division `//` agrees with `Int`'s `/` (Euclidean division). -/
def scale (val : ℤ) (bits : ℕ) : ℤ :=
  val * (2 ^ bits - 1) / 255

/-- Clamp an integer into `[lo, hi]`; this is how VapourSynth stores any
computed sample back into an integer clip of range `[lo, hi]`. -/
def clampI (x lo hi : ℤ) : ℤ :=
  max lo (min x hi)

/-- Round the exact fraction `a / b` (with `b > 0`) to the nearest integer,
ties to even.  This is Python's `round` on the corresponding value and also
the IEEE default rounding used when VapourSynth's `std.Expr` converts its
float result to an integer sample. -/
def roundHalfEvenDiv (a b : ℤ) : ℤ :=
  let f := a / b
  let r := a % b
  if 2 * r < b then f
  else if b < 2 * r then f + 1
  else if f % 2 = 0 then f else f + 1

/-- The threshold-clamp stage of `btb` (awsmfunc.py lines 231-240), per
sample, at bit depth `bits` with threshold `thresh`:

* `difference = core.std.MakeDiff(balancedLuma, original)` — VapourSynth
  computes `clamp(balanced - original + neutral)` with
  `neutral = 1 << (bits - 1)`;
* `Tp = scale(128 + thresh, bits)`, `expr = 'x Tp > Tp x ?'` — clamp the
  difference from above at `Tp` (the `std.Expr` output is stored clamped to
  the format range);
* `Tm = scale(128 - thresh, bits)`, `expr = 'x Tm < Tm x ?'` — clamp from
  below at `Tm`;
* `last = core.std.MergeDiff(original, difference)` — VapourSynth computes
  `clamp(original + difference - neutral)`.

`balanced` is the sample of `balancedLuma` at the same position, `orig` the
sample of `original`. -/
def btbThreshStage (bits : ℕ) (thresh orig balanced : ℤ) : ℤ :=
  let maxv : ℤ := 2 ^ bits - 1
  let half : ℤ := 2 ^ (bits - 1)
  let d0 := clampI (balanced - orig + half) 0 maxv
  let Tp := scale (128 + thresh) bits
  let Tm := scale (128 - thresh) bits
  let d1 := clampI (if d0 > Tp then Tp else d0) 0 maxv
  let d2 := clampI (if d1 < Tm then Tm else d1) 0 maxv
  clampI (orig + d2 - half) 0 maxv

/-- The luma plane of the balancing expression `yexpr` (awsmfunc.py line 227)

`"z s16 - y s16 - / 8 min 0.4 max x s16 - * s16 +"`

per sample, with `s16 = scale(16, bits)`.  `x` is the sample of
`balancedChroma`, whose luma plane is the `original` sample passed through
unchanged (line 225 uses the empty expression for plane 0).  The blurred
values `y` (from `originalBlur`) and `z` (from `referenceBlur`) are outputs
of the external bicubic resamplers, so the quotient `(z - s16) / (y - s16)`
is abstracted as the exact fraction `qn / qd` with `qd > 0`.  The float
arithmetic of `std.Expr` is modeled exactly over fractions; the result is
rounded to nearest (ties to even) and stored clamped to the format range. -/
def lumaBalanceSample (bits : ℕ) (qn qd orig : ℤ) : ℤ :=
  let maxv : ℤ := 2 ^ bits - 1
  let s16 := scale 16 bits
  -- "8 min": if 8 < qn/qd use 8, else keep qn/qd
  let mn := if 8 * qd < qn then 8 else qn
  let md := if 8 * qd < qn then 1 else qd
  -- "0.4 max": if mn/md < 2/5 use 2/5, else keep mn/md
  let rn := if 5 * mn < 2 * md then 2 else mn
  let rd := if 5 * mn < 2 * md then 5 else md
  -- (rn/rd) * (orig - s16) + s16, rounded and clamped
  clampI (roundHalfEvenDiv (rn * (orig - s16) + s16 * rd) rd) 0 maxv

/-- The composed luma data path of one `btb` band sample: balancing
expression (line 227/229) followed by the threshold-clamp stage
(lines 231-240). -/
def btbLumaSample (bits : ℕ) (thresh qn qd orig : ℤ) : ℤ :=
  btbThreshStage bits thresh orig (lumaBalanceSample bits qn qd orig)

/-- A plane of a frame: a 2D grid of integer samples addressed as
`data row column`, with the given width and height.  Samples outside the
bounds are not part of the frame; frame equality is dimension equality plus
sample equality at all in-bounds positions. -/
structure Plane where
  width : ℕ
  height : ℕ
  data : ℕ → ℕ → ℤ

/-- `core.std.Transpose`: `out[i][j] = in[j][i]`, swapping width and height. -/
def Plane.transpose (P : Plane) : Plane :=
  ⟨P.height, P.width, fun i j => P.data j i⟩

/-- `core.std.FlipHorizontal`: `out[i][j] = in[i][width - 1 - j]`. -/
def Plane.flipHorizontal (P : Plane) : Plane :=
  ⟨P.width, P.height, fun i j => P.data i (P.width - 1 - j)⟩

/-- The four-edge driver of `bbmoda` (awsmfunc.py lines 248-255).  Each line
is `c = btb(c, thickness, thresh, blur).std.Transpose().std.FlipHorizontal()`
when the thickness is positive, else
`c = core.std.Transpose(c).std.FlipHorizontal()`, in the order
`cTop`, `cLeft`, `cBottom`, `cRight`.  The single-edge operator `btb` (a
whole-plane transform whose per-sample data path is analyzed separately) is
abstracted as the parameter `btbF`, applied to the thickness and the current
plane; `thresh` and `blur` are fixed throughout the four calls and therefore
folded into `btbF`. -/
def bbmoda (btbF : ℕ → Plane → Plane) (c : Plane)
    (cTop cBottom cLeft cRight : ℕ) : Plane :=
  let c1 := if 0 < cTop then ((btbF cTop c).transpose).flipHorizontal
    else (c.transpose).flipHorizontal
  let c2 := if 0 < cLeft then ((btbF cLeft c1).transpose).flipHorizontal
    else (c1.transpose).flipHorizontal
  let c3 := if 0 < cBottom then ((btbF cBottom c2).transpose).flipHorizontal
    else (c2.transpose).flipHorizontal
  if 0 < cRight then ((btbF cRight c3).transpose).flipHorizontal
    else (c3.transpose).flipHorizontal

/-- A filter-graph expression describing a clip as built by the orchestrators.
Every constructor except `replaceFrames` records one call to a frame-uniform
clip operation together with its arguments:

* `source` — the input clip;
* `crop` — `core.std.Crop(left, right, top, bottom)`;
* `fillBorders` — `core.fb.FillBorders(left, right, top, bottom,
  mode="fillmargins")`, the edge-replication fill primitive;
* `mergeChromaFill` — the chroma-only fill of `CropResize` (lines 381-384):
  `core.std.Merge(core.fb.FillBorders(c, cfill), c, [1, 0])`;
* `resample` — one of the kernel resamplers of `CropResize` (lines 394-438),
  recording the lower-cased kernel name, target size `w × h` and the
  fractional source window `sx sy sw sh`;
* `spline36Resize` — the fixed `core.resize.Spline36(clip, width, height)`
  call of `CropResizeReader` line 512;
* `addBorders` — `core.std.AddBorders`;
* `rektRow`/`rektColumn` — `FixBrightnessProtect2` (= `rektlvls`) on one
  row/column with one adjustment value (`CropResizeReader` lines 525-551);
* `replaceFrames` — `ReplaceFrames(base, repl, mappings="[s e]")`
  (= `fvf.ReplaceFramesSimple`), splicing `repl`'s frames over the inclusive
  index interval `[s, e]` of `base`. -/
inductive ClipExpr where
  | source : ClipExpr
  | crop (c : ClipExpr) (left right top bottom : ℤ) : ClipExpr
  | fillBorders (c : ClipExpr) (left right top bottom : ℤ) : ClipExpr
  | mergeChromaFill (c : ClipExpr) (cfill : List ℤ) : ClipExpr
  | resample (c : ClipExpr) (kernel : String) (w h sx sy sw sh : ℤ) : ClipExpr
  | spline36Resize (c : ClipExpr) (w h : ℤ) : ClipExpr
  | addBorders (c : ClipExpr) (left right top bottom : ℤ) : ClipExpr
  | rektRow (c : ClipExpr) (pos adj : ℤ) : ClipExpr
  | rektColumn (c : ClipExpr) (pos adj : ℤ) : ClipExpr
  | replaceFrames (base repl : ClipExpr) (startF endF : ℤ) : ClipExpr
deriving DecidableEq

/-- The frame at index `n` of a filter graph: `replaceFrames base repl s e`
serves `repl`'s frame on the inclusive interval `[s, e]` and `base`'s frame
elsewhere (the semantics of `fvf.ReplaceFramesSimple`); every other node is a
frame-uniform clip whose frame at any index is described by the node itself. -/
def frameAt : ClipExpr → ℤ → ClipExpr
  | ClipExpr.replaceFrames base repl s e, n =>
    if s ≤ n ∧ n ≤ e then frameAt repl n else frameAt base n
  | c, _ => c

/-- `true` iff the graph contains an edge-replication fill node with exactly
the given four amounts. -/
def hasFillNode (l r t b : ℤ) : ClipExpr → Bool
  | ClipExpr.source => false
  | ClipExpr.crop c _ _ _ _ => hasFillNode l r t b c
  | ClipExpr.fillBorders c l' r' t' b' =>
    (l' == l && r' == r && t' == t && b' == b) || hasFillNode l r t b c
  | ClipExpr.mergeChromaFill c _ => hasFillNode l r t b c
  | ClipExpr.resample c _ _ _ _ _ _ _ => hasFillNode l r t b c
  | ClipExpr.spline36Resize c _ _ => hasFillNode l r t b c
  | ClipExpr.addBorders c _ _ _ _ => hasFillNode l r t b c
  | ClipExpr.rektRow c _ _ => hasFillNode l r t b c
  | ClipExpr.rektColumn c _ _ => hasFillNode l r t b c
  | ClipExpr.replaceFrames c1 c2 _ _ => hasFillNode l r t b c1 || hasFillNode l r t b c2

/-- The quantities computed by one successful `CropResize` call:
the fill-reduced crop requests (lines 340-343), the even crop amounts passed
to `std.Crop` (line 376), the fill amounts passed to `fb.FillBorders`
(lines 378-379), the output dimensions (lines 366-367) and the resulting
filter graph. -/
structure CRResult where
  effLeft : ℤ
  effRight : ℤ
  effTop : ℤ
  effBottom : ℤ
  cropLeft : ℤ
  cropRight : ℤ
  cropTop : ℤ
  cropBottom : ℤ
  fbLeft : ℤ
  fbRight : ℤ
  fbTop : ℤ
  fbBottom : ℤ
  w : ℤ
  h : ℤ
  expr : ClipExpr
deriving DecidableEq

/-- Python `str.lower()` on ASCII strings (the kernel names dispatched on by
`CropResize`): lower-case every character. -/
def pyLower (s : String) : String := String.mk (s.data.map Char.toLower)

def crRatios (cw ch : ℤ) (width height : Option ℤ)
    (left right top bottom : ℤ) : ℤ × ℤ × ℤ × ℤ :=
  match width, height with
  | none, none => (1, 1, 1, 1)
  | none, some hh => (hh, ch - top - bottom, hh, ch - top - bottom)
  | some ww, none => (ww, cw - left - right, ww, cw - left - right)
  | some ww, some hh => (ww, cw, hh, ch)

/-- `CropResize` (awsmfunc.py lines 317-444) on a clip of size `cw × ch`.

* Lines 337-347: `fill` must be a 4-list (translated as a pattern match in
  place of the `len(fill) == 4` test plus `fill[i]` indexing), else
  `TypeError`; each edge must
  satisfy `crop - fill ≥ 0`, else
  `ValueError('CropResize: filling exceeds cropping.')`; the effective crops
  are the fill-reduced ones.
* Lines 349-352: parity remainders `lr rr tr br = crop % 2` (Python `%` on
  ints with positive modulus agrees with `Int.emod`).
* Lines 354-367: the resize ratios `rw`, `rh` (Python float divisions,
  modeled as exact fractions num/den) and the even-rounded output size
  `w = round(((cw - left - right) * rw) / 2) * 2` and likewise `h`.
* Lines 369-374: `bb` must be a 4-list (then `128, 999` are appended) or a
  6-list, else `TypeError`.  When `bb` is present, the call at line 391 is
  `bbmod(c=cropeven, cTop=..., ..., thresh=..., blur=...)`, but `bbmod`
  (lines 56-84) has no parameters named `c` or `thresh`, so Python raises
  `TypeError` before any frame is produced; the model returns that error.
* Lines 376-386: the even crop, the edge-replication fill of the parity
  remainder plus the requested fill, and the optional chroma-only fill
  (only the list form of `cfill` is modeled; a callable `cfill` or `resizer`
  is outside a first-order model).
* Lines 394-442: kernel dispatch on `resizer.lower()`; the six known kernels
  produce one resample node with the fractional source window
  `sx = lr, sy = tr, sw = cropeven.width - lr - rr = cw - left - right,
  sh = ch - top - bottom`; an unknown kernel name raises `TypeError`. -/
def CropResize (cw ch : ℤ) (c : ClipExpr) (width height : Option ℤ)
    (left right top bottom : ℤ) (bb : Option (List ℤ)) (fill : List ℤ)
    (cfill : Option (List ℤ)) (resizer : String) : Except String CRResult :=
  match fill with
  | [f0, f1, f2, f3] =>
    if 0 ≤ left - f0 ∧ 0 ≤ right - f1 ∧ 0 ≤ top - f2 ∧ 0 ≤ bottom - f3 then
      let left := left - f0
      let right := right - f1
      let top := top - f2
      let bottom := bottom - f3
      let lr := left % 2
      let rr := right % 2
      let tr := top % 2
      let br := bottom % 2
      let ratios := crRatios cw ch width height left right top bottom
      let w := roundHalfEvenDiv ((cw - left - right) * ratios.1) (2 * ratios.2.1) * 2
      let h := roundHalfEvenDiv ((ch - top - bottom) * ratios.2.2.1) (2 * ratios.2.2.2) * 2
      match bb with
      | some b =>
        if b.length = 4 ∨ b.length = 6 then
          .error "TypeError: bbmod() got an unexpected keyword argument"
        else .error "CropResize: bbmod arguments not valid."
      | none =>
        let cropeven := ClipExpr.crop c (left - lr) (right - rr) (top - tr) (bottom - br)
        let cropeven := ClipExpr.fillBorders cropeven (lr + f0) (rr + f1) (tr + f2) (br + f3)
        let cropeven := match cfill with
          | some cf => ClipExpr.mergeChromaFill cropeven cf
          | none => cropeven
        let k := pyLower resizer
        if k = "bilinear" ∨ k = "bicubic" ∨ k = "point" ∨ k = "lanczos" ∨
            k = "spline16" ∨ k = "spline36" then
          .ok ⟨left, right, top, bottom,
            left - lr, right - rr, top - tr, bottom - br,
            lr + f0, rr + f1, tr + f2, br + f3,
            w, h,
            ClipExpr.resample cropeven k w h lr tr (cw - left - right) (ch - top - bottom)⟩
        else .error "CropResize: Resizer unknown"
    else .error "CropResize: filling exceeds cropping."
  | _ => .error "CropResize: fill arguments not valid."

/-- `BlackBorders` (awsmfunc.py lines 260-314).

* Lines 269-270: all four thicknesses must be even, else
  `ValueError('BlackBorders: border size needs to be mod 2.')`.
* Lines 272-273: a positive `left` adds a plain black border
  (`core.std.AddBorders(clip, left=left)`) and nothing else — no mirrored
  strip, no desaturation, no brightness match.
* Lines 275-284 (`right`), 288-297 (`top`), 301-310 (`bottom`): the code
  crops the innermost 2-pixel strip at the seam, mirrors it
  (`FlipHorizontal`/`FlipVertical`), desaturates it (`adjust.Tweak(sat=0.4)`)
  and stacks it outward, but then calls `FixColumnBrightness` /
  `FixRowBrightness` with keyword arguments `input_low`, `input_high`,
  `output_low`, `output_high`, `scale_inputs` — parameters those functions
  (lines 29-37 and 40-48: `(clip, column/row, min_in, max_in, min_out,
  max_out)`) do not accept.  Python therefore raises `TypeError` at the first
  such call, before any frame is produced (the desaturated stack built in
  lines 277-280 is discarded by the exception), so the model returns that
  error for any positive `right`, `top` or `bottom`.  (Even with matching
  keywords, the body of `FixColumnBrightness` uses `rekt_fast`, which
  awsmfunc.py never imports.) -/
def BlackBorders (clip : ClipExpr) (left right top bottom : ℤ) : Except String ClipExpr :=
  if ¬ (left % 2 = 0 ∧ right % 2 = 0 ∧ top % 2 = 0 ∧ bottom % 2 = 0) then
    .error "BlackBorders: border size needs to be mod 2."
  else
    let c1 := if 0 < left then ClipExpr.addBorders clip left 0 0 0 else clip
    if 0 < right then
      .error "TypeError: FixColumnBrightness() got an unexpected keyword argument input_low"
    else if 0 < top then
      .error "TypeError: FixRowBrightness() got an unexpected keyword argument input_low"
    else if 0 < bottom then
      .error "TypeError: FixRowBrightness() got an unexpected keyword argument input_low"
    else .ok c1

/-- The outcome of the fill-small-borders block of `CropResizeReader`:
the four (possibly zeroed) crop amounts, the (possibly bumped) bbmod
parameter list and the (possibly filled) clip. -/
structure FillMaxResult where
  cl : ℤ
  cr : ℤ
  ct : ℤ
  cb : ℤ
  bbtemp : Option (List ℤ)
  clip : ClipExpr
deriving DecidableEq

/-- The fill-small-borders block of `CropResizeReader` (awsmfunc.py lines
565-587): for each edge in the order left, right, top, bottom, if the zone's
crop amount is positive and at most `fill_max`, the edge is filled in place
by `core.fb.FillBorders(..., mode="fillmargins")` (edge replication), the
bbmod thickness for that edge (`bbtemp[0..3]`) is increased by the filled
amount when a bbmod list is present, and the crop amount is set to 0 for the
rest of the zone's pipeline. -/
def applyFillMax (fillMax cl cr ct cb : ℤ) (bbtemp : Option (List ℤ))
    (clip : ClipExpr) : FillMaxResult :=
  let s1 : FillMaxResult :=
    if 0 < cl ∧ cl ≤ fillMax then
      ⟨0, cr, ct, cb, bbtemp.map (fun b => b.set 0 (b.getD 0 0 + cl)),
        ClipExpr.fillBorders clip cl 0 0 0⟩
    else ⟨cl, cr, ct, cb, bbtemp, clip⟩
  let s2 : FillMaxResult :=
    if 0 < s1.cr ∧ s1.cr ≤ fillMax then
      ⟨s1.cl, 0, s1.ct, s1.cb, s1.bbtemp.map (fun b => b.set 1 (b.getD 1 0 + s1.cr)),
        ClipExpr.fillBorders s1.clip 0 s1.cr 0 0⟩
    else s1
  let s3 : FillMaxResult :=
    if 0 < s2.ct ∧ s2.ct ≤ fillMax then
      ⟨s2.cl, s2.cr, 0, s2.cb, s2.bbtemp.map (fun b => b.set 2 (b.getD 2 0 + s2.ct)),
        ClipExpr.fillBorders s2.clip 0 0 s2.ct 0⟩
    else s2
  if 0 < s3.cb ∧ s3.cb ≤ fillMax then
    ⟨s3.cl, s3.cr, s3.ct, 0, s3.bbtemp.map (fun b => b.set 3 (b.getD 3 0 + s3.cb)),
      ClipExpr.fillBorders s3.clip 0 0 0 s3.cb⟩
  else s3

/-- The resolved output size and resize ratios of `CropResizeReader`
(awsmfunc.py lines 478-490): with both target dimensions omitted the clip
size and ratio 1; with one given, the other derived as
`round((dim * ratio) / 2) * 2`; ratios stored as exact fractions. -/
structure ReaderDims where
  W : ℤ
  H : ℤ
  rwn : ℤ
  rwd : ℤ
  rhn : ℤ
  rhd : ℤ
deriving DecidableEq

def readerDims (cw ch : ℤ) (width height : Option ℤ) : ReaderDims :=
  match width, height with
  | none, none => ⟨cw, ch, 1, 1, 1, 1⟩
  | none, some hh => ⟨roundHalfEvenDiv (cw * hh) (2 * ch) * 2, hh, hh, ch, hh, ch⟩
  | some ww, none => ⟨ww, roundHalfEvenDiv (ch * ww) (2 * cw) * 2, ww, cw, ww, cw⟩
  | some ww, some hh => ⟨ww, hh, ww, cw, hh, ch⟩

/-- The per-zone pipeline of the zone loop of `CropResizeReader`
(awsmfunc.py lines 516-602):

* lines 518-521: the crop fields `zone[2..5]` (a row shorter than 6 fields
  raises `IndexError` here);
* line 523: `filteredtemp = clip`;
* lines 525-551: the `FixBrightnessProtect2` row/column fixes, each guarded
  by `FixUncrop` or a positive crop on the matching edge, negative positions
  offset by the bottom/right crop, nonnegative ones by the top/left crop
  (`rows`/`cols` are the already-listified `(position, adjustment)` pairs);
* lines 553-563: `bbtemp` = the reader's 6-entry bbmod list with entries
  zeroed where `FixUncrop` is false and the zone crop on that edge is 0;
* lines 565-587: the fill-small-borders block (`applyFillMax`);
* lines 589-594: the fill list — `[0,0,0,0]` for a 6-field row, `zone[6..9]`
  for a 10-field row, else `TypeError('CropResizeReader: csv file not
  valid.')`;
* lines 596-602: `CropResize` at the resolved size and `BlackBorders`
  padding back to `width × height` with `x = round((cl * rw) / 2) * 2` and
  `y = round((ct * rh) / 2) * 2`; the result is the pair
  `(resizedfull, filteredtemp)` spliced by `processZone`. -/
def zoneOutput (cw ch : ℤ) (d : ReaderDims) (rows cols : List (ℤ × ℤ))
    (fixUncrop : List Bool) (fillMax : ℤ) (bb : Option (List ℤ)) (resizer : String)
    (zone : List ℤ) : Except String (ClipExpr × ClipExpr) :=
  if zone.length < 6 then .error "IndexError: list index out of range"
  else
    let cl := zone.getD 2 0
    let cr := zone.getD 3 0
    let ct := zone.getD 4 0
    let cb := zone.getD 5 0
    let ft := ClipExpr.source
    let ft := rows.foldl (fun acc ra =>
      if ra.1 < 0 then
        (if fixUncrop.getD 3 false = true ∨ 0 < cb then
          ClipExpr.rektRow acc (ra.1 - cb) ra.2 else acc)
      else
        (if fixUncrop.getD 2 false = true ∨ 0 < ct then
          ClipExpr.rektRow acc (ct + ra.1) ra.2 else acc)) ft
    let ft := cols.foldl (fun acc ca =>
      if ca.1 < 0 then
        (if fixUncrop.getD 1 false = true ∨ 0 < cr then
          ClipExpr.rektColumn acc (ca.1 - cr) ca.2 else acc)
      else
        (if fixUncrop.getD 0 false = true ∨ 0 < cl then
          ClipExpr.rektColumn acc (cl + ca.1) ca.2 else acc)) ft
    let bbtemp := bb.map (fun b =>
      [if fixUncrop.getD 0 false = false ∧ cl = 0 then 0 else b.getD 0 0,
       if fixUncrop.getD 1 false = false ∧ cr = 0 then 0 else b.getD 1 0,
       if fixUncrop.getD 2 false = false ∧ ct = 0 then 0 else b.getD 2 0,
       if fixUncrop.getD 3 false = false ∧ cb = 0 then 0 else b.getD 3 0,
       b.getD 4 0, b.getD 5 0])
    let fm := applyFillMax fillMax cl cr ct cb bbtemp ft
    match (if zone.length = 6 then Except.ok ([0, 0, 0, 0] : List ℤ)
      else if zone.length = 10 then
        Except.ok [zone.getD 6 0, zone.getD 7 0, zone.getD 8 0, zone.getD 9 0]
      else Except.error "CropResizeReader: csv file not valid.") with
    | Except.error e => Except.error e
    | Except.ok fill =>
      match CropResize cw ch fm.clip (some d.W) (some d.H) fm.cl fm.cr fm.ct fm.cb
          fm.bbtemp fill none resizer with
      | Except.error e => Except.error e
      | Except.ok res =>
        let x := roundHalfEvenDiv (fm.cl * d.rwn) (2 * d.rwd) * 2
        let y := roundHalfEvenDiv (fm.ct * d.rhn) (2 * d.rhd) * 2
        match BlackBorders res.expr x (d.W - res.w - x) y (d.H - res.h - y) with
        | Except.error e => Except.error e
        | Except.ok rf => Except.ok (rf, fm.clip)

/-- The two `ReplaceFrames` splices of one zone-loop iteration (awsmfunc.py
lines 604-606): the zone's `resizedfull` and final `filteredtemp` replace
the frames of the running `resized` and `filtered` clips over the inclusive
interval `[zone[0], zone[1]]`. -/
def processZone (cw ch : ℤ) (d : ReaderDims) (rows cols : List (ℤ × ℤ))
    (fixUncrop : List Bool) (fillMax : ℤ) (bb : Option (List ℤ)) (resizer : String)
    (st : ClipExpr × ClipExpr) (zone : List ℤ) : Except String (ClipExpr × ClipExpr) :=
  match zoneOutput cw ch d rows cols fixUncrop fillMax bb resizer zone with
  | Except.error e => Except.error e
  | Except.ok p =>
    Except.ok (ClipExpr.replaceFrames st.1 p.1 (zone.getD 0 0) (zone.getD 1 0),
      ClipExpr.replaceFrames st.2 p.2 (zone.getD 0 0) (zone.getD 1 0))

/-- The zone loop of `CropResizeReader` (lines 516-606): fold `processZone`
over the schedule rows in file order, aborting at the first error, exactly
like the Python `for` loop with exceptions. -/
def readerLoop (cw ch : ℤ) (d : ReaderDims) (rows cols : List (ℤ × ℤ))
    (fixUncrop : List Bool) (fillMax : ℤ) (bb : Option (List ℤ)) (resizer : String)
    (st : ClipExpr × ClipExpr) : List (List ℤ) → Except String (ClipExpr × ClipExpr)
  | [] => Except.ok st
  | z :: zs =>
    match processZone cw ch d rows cols fixUncrop fillMax bb resizer st z with
    | Except.error e => Except.error e
    | Except.ok st1 => readerLoop cw ch d rows cols fixUncrop fillMax bb resizer st1 zs

/-- `CropResizeReader` (awsmfunc.py lines 452-608).

* Lines 475-476: `FixUncrop` must have 4 entries, else `TypeError`.
* Lines 478-490: resolved output size and ratios (`readerDims`).
* Lines 494-510: when a bbmod list is given it must have 4 entries (then
  `128, 999` are appended) or 6, else `TypeError`; the whole-clip call at
  line 509 is `bbmod(c=filtered, ..., thresh=bbtemp[4], blur=bbtemp[5])`,
  but `bbmod` (lines 56-84) has no parameters named `c` or `thresh`, so
  Python raises `TypeError` before any frame is produced.
* Line 512: the base output for frames not covered by any zone is
  unconditionally `core.resize.Spline36(clip=filtered, width=width,
  height=height)` — the `resizer` argument is not consulted here.
* Lines 514-606: the zone loop; each zone splices its result over its
  inclusive frame interval with `ReplaceFrames`, so a later row in file
  order overwrites earlier rows where intervals overlap.
* The returned clip is `resized` (line 608). -/
def CropResizeReader (cw ch : ℤ) (width height : Option ℤ) (rows cols : List (ℤ × ℤ))
    (fillMax : ℤ) (bb : Option (List ℤ)) (fixUncrop : List Bool) (resizer : String)
    (zones : List (List ℤ)) : Except String ClipExpr :=
  if fixUncrop.length ≠ 4 then .error "CropResizeReader: FixUncrop argument not valid."
  else
    let d := readerDims cw ch width height
    match bb with
    | some b =>
      if b.length = 4 ∨ b.length = 6 then
        .error "TypeError: bbmod() got an unexpected keyword argument c"
      else .error "CropResizeReader: bbmod arguments not valid."
    | none =>
      match readerLoop cw ch d rows cols fixUncrop fillMax none resizer
          (ClipExpr.spline36Resize ClipExpr.source d.W d.H, ClipExpr.source) zones with
      | Except.error e => Except.error e
      | Except.ok st => Except.ok st.1

lemma scale_mono {a b : ℤ} (bits : ℕ) (h : a ≤ b) : scale a bits ≤ scale b bits := by
  unfold scale
  have h2 : (0 : ℤ) ≤ 2 ^ bits - 1 := by
    have : (0 : ℤ) < 2 ^ bits := by positivity
    omega
  exact Int.ediv_le_ediv (by norm_num) (by nlinarith)

lemma scale_255 (bits : ℕ) : scale 255 bits = 2 ^ bits - 1 := by
  unfold scale
  rw [mul_comm]
  exact Int.mul_ediv_cancel _ (by norm_num)

lemma scale_le_of_le_mul {v k : ℤ} (bits : ℕ) (h : v * (2 ^ bits - 1) ≤ k * 255) :
    scale v bits ≤ k := by
  unfold scale
  calc v * (2 ^ bits - 1) / 255 ≤ k * 255 / 255 := Int.ediv_le_ediv (by norm_num) h
    _ = k := Int.mul_ediv_cancel _ (by norm_num)

lemma le_scale_of_mul_le {v k : ℤ} (bits : ℕ) (h : k * 255 ≤ v * (2 ^ bits - 1)) :
    k ≤ scale v bits := by
  unfold scale
  calc k = k * 255 / 255 := (Int.mul_ediv_cancel _ (by norm_num)).symm
    _ ≤ v * (2 ^ bits - 1) / 255 := Int.ediv_le_ediv (by norm_num) h

/-- C1 (counterexample): at 16-bit depth the claimed bound
`|output - input| ≤ scale(threshold, bitDepth)` fails.  Concrete input: bit
depth 16, `thresh = 1`, original band sample `0`, blurred-reference quotient
`0` (so the clamp `0.4 max` engages, as it does whenever the band is much
darker than the interior reference).  The balanced sample is
`round(0.4 * (0 - 4112) + 4112) = 2467`, the clamped difference is
`Tp = scale(129, 16) = 33153`, and the output sample is
`33153 - 32768 = 385`, while `scale(1, 16) = 257 < 385`. -/
theorem btb_threshold_bound_counterexample :
    ¬ (|btbLumaSample 16 1 0 1 0 - 0| ≤ scale 1 16) := by
  decide

/-- C1 (amended): for every bit depth `bits ≥ 8`, every threshold ≥ 1 and
every in-range original and balanced sample, the output sample of the
threshold-clamp stage of `btb` (awsmfunc.py lines 231-240) satisfies

`scale(128 - thresh, bits) - 2^(bits-1) ≤ output - input ≤ scale(128 + thresh, bits) - 2^(bits-1)`,

and at 8-bit depth this interval is exactly `[-thresh, thresh]`, i.e.
`|output - input| ≤ scale(thresh, 8) = thresh`.  The claimed bound
`|output - input| ≤ scale(thresh, bits)` holds only for `bits = 8`: at higher
depths the clamp center `scale(128, bits)` exceeds the `MakeDiff`/`MergeDiff`
neutral value `2^(bits-1)`, shifting the interval upward. -/
theorem btb_threshold_bound_amended (bits : ℕ) (t o v : ℤ)
    (hbits : 8 ≤ bits) (ht : 1 ≤ t)
    (ho : 0 ≤ o) (ho2 : o ≤ 2 ^ bits - 1) (hv : 0 ≤ v) (hv2 : v ≤ 2 ^ bits - 1) :
    (scale (128 - t) bits - 2 ^ (bits - 1) ≤ btbThreshStage bits t o v - o ∧
      btbThreshStage bits t o v - o ≤ scale (128 + t) bits - 2 ^ (bits - 1)) ∧
    (bits = 8 → |btbThreshStage bits t o v - o| ≤ scale t bits) := by
  have hpow : (2 : ℤ) ^ bits = 2 * 2 ^ (bits - 1) := by
    rw [← pow_succ']
    congr 1
    omega
  have h128 : (128 : ℤ) ≤ 2 ^ (bits - 1) := by
    calc (128 : ℤ) = 2 ^ 7 := by norm_num
      _ ≤ 2 ^ (bits - 1) := pow_le_pow_right₀ (by norm_num) (by omega)
  have hTmTp : scale (128 - t) bits ≤ scale (128 + t) bits := scale_mono bits (by omega)
  have hTmh : scale (128 - t) bits ≤ 2 ^ (bits - 1) := by
    refine scale_le_of_le_mul bits ?_
    nlinarith
  have hTmm : scale (128 - t) bits ≤ 2 ^ bits - 1 := by
    calc scale (128 - t) bits ≤ scale 255 bits := scale_mono bits (by omega)
      _ = 2 ^ bits - 1 := scale_255 bits
  have hTph : (2 : ℤ) ^ (bits - 1) ≤ scale (128 + t) bits := by
    refine le_scale_of_mul_le bits ?_
    nlinarith
  have hmain : scale (128 - t) bits - 2 ^ (bits - 1) ≤ btbThreshStage bits t o v - o ∧
      btbThreshStage bits t o v - o ≤ scale (128 + t) bits - 2 ^ (bits - 1) := by
    simp only [btbThreshStage, clampI]
    set Tp := scale (128 + t) bits with hTpd
    set Tm := scale (128 - t) bits with hTmd
    set H := (2 : ℤ) ^ (bits - 1) with hHd
    set M := (2 : ℤ) ^ bits with hMd
    clear_value Tp Tm H M
    split_ifs <;> omega
  refine ⟨hmain, fun hb => ?_⟩
  have h8 : ∀ w : ℤ, scale w 8 = w := by
    intro w
    unfold scale
    norm_num
  subst hb
  obtain ⟨h1, h2⟩ := hmain
  rw [h8] at h1 h2
  rw [h8, abs_le]
  constructor <;> omega

/-- Witness for `btb_threshold_bound_amended` at bit depth 8, threshold 16,
original sample 0, balanced sample 255. -/
theorem btb_threshold_bound_amended_witness :
    (scale (128 - 16) 8 - 2 ^ (8 - 1) ≤ btbThreshStage 8 16 0 255 - 0 ∧
      btbThreshStage 8 16 0 255 - 0 ≤ scale (128 + 16) 8 - 2 ^ (8 - 1)) ∧
    ((8 : ℕ) = 8 → |btbThreshStage 8 16 0 255 - 0| ≤ scale 16 8) :=
  btb_threshold_bound_amended 8 16 0 255 (by decide) (by decide) (by decide)
    (by decide) (by decide) (by decide)

/-- C3: with edge thickness 0 on all four sides, `bbmoda` performs four
`Transpose` + `FlipHorizontal` rotations and no `btb` call, and the result is
the input frame: same dimensions and the same sample at every in-bounds
position (whatever the single-edge operator is). -/
theorem bbmoda_zero_thickness_identity (btbF : ℕ → Plane → Plane) (P : Plane) :
    (bbmoda btbF P 0 0 0 0).width = P.width ∧
    (bbmoda btbF P 0 0 0 0).height = P.height ∧
    ∀ i j, i < P.height → j < P.width →
      (bbmoda btbF P 0 0 0 0).data i j = P.data i j := by
  refine ⟨rfl, rfl, fun i j hi hj => ?_⟩
  show P.data (P.height - 1 - (P.height - 1 - i)) (P.width - 1 - (P.width - 1 - j)) =
    P.data i j
  congr 1 <;> omega

/-- Witness for `bbmoda_zero_thickness_identity` on a concrete 2×2 plane. -/
theorem bbmoda_zero_thickness_identity_witness :
    (bbmoda (fun _ p => p) ⟨2, 2, fun i j => (i : ℤ) + 2 * j⟩ 0 0 0 0).data 0 1 =
      (⟨2, 2, fun i j => (i : ℤ) + 2 * j⟩ : Plane).data 0 1 :=
  (bbmoda_zero_thickness_identity (fun _ p => p) ⟨2, 2, fun i j => (i : ℤ) + 2 * j⟩).2.2
    0 1 (by decide) (by decide)

/-- C4: with positive thickness on all four sides, `bbmoda` processes the
edges in exactly the order top, left, bottom, right, and each edge's `btb`
call receives the frame as already corrected by the previous edges (rotated
a quarter turn by `Transpose` + `FlipHorizontal` so that the next edge lies
on top), not the original input.  The right-hand side exhibits the exact
nesting: `btb` for `cLeft` is applied to the rotated output of `btb` for
`cTop`, and so on, with a final rotation restoring the orientation. -/
theorem bbmoda_edge_order (btbF : ℕ → Plane → Plane) (P : Plane)
    (cTop cBottom cLeft cRight : ℕ) (hT : 0 < cTop) (hL : 0 < cLeft)
    (hB : 0 < cBottom) (hR : 0 < cRight) :
    bbmoda btbF P cTop cBottom cLeft cRight =
      ((btbF cRight
        (((btbF cBottom
          (((btbF cLeft
            (((btbF cTop P).transpose).flipHorizontal)).transpose).flipHorizontal)
          ).transpose).flipHorizontal)).transpose).flipHorizontal := by
  simp only [bbmoda, if_pos hT, if_pos hL, if_pos hB, if_pos hR]

/-- Witness for `bbmoda_edge_order` with thickness 1 on every edge and the
identity as single-edge operator, on a concrete 1×1 plane. -/
theorem bbmoda_edge_order_witness :
    bbmoda (fun _ p => p) ⟨1, 1, fun _ _ => 7⟩ 1 1 1 1 =
      ((((((((⟨1, 1, fun _ _ => 7⟩ : Plane
        ).transpose).flipHorizontal).transpose).flipHorizontal
        ).transpose).flipHorizontal).transpose).flipHorizontal :=
  bbmoda_edge_order (fun _ p => p) ⟨1, 1, fun _ _ => 7⟩ 1 1 1 1
    (by decide) (by decide) (by decide) (by decide)

lemma roundHalfEvenDiv_two_even {a : ℤ} (h : a % 2 = 0) :
    roundHalfEvenDiv a 2 * 2 = a := by
  simp only [roundHalfEvenDiv]
  split_ifs <;> omega

/-- C5: in `CropResize` (awsmfunc.py lines 337-347), if the requested fill
exceeds the requested crop on any of the four edges, the call raises
`ValueError('CropResize: filling exceeds cropping.')` and produces no frame;
otherwise each edge's effective crop is the requested crop reduced by that
edge's fill amount. -/
theorem cropResize_fill_exceeds_crop (cw ch : ℤ) (c : ClipExpr)
    (width height : Option ℤ) (left right top bottom f0 f1 f2 f3 : ℤ)
    (bb : Option (List ℤ)) (cfill : Option (List ℤ)) (resizer : String) :
    ((left < f0 ∨ right < f1 ∨ top < f2 ∨ bottom < f3) →
      CropResize cw ch c width height left right top bottom bb [f0, f1, f2, f3]
          cfill resizer = .error "CropResize: filling exceeds cropping.") ∧
    (∀ res, CropResize cw ch c width height left right top bottom bb [f0, f1, f2, f3]
        cfill resizer = .ok res →
      res.effLeft = left - f0 ∧ res.effRight = right - f1 ∧
      res.effTop = top - f2 ∧ res.effBottom = bottom - f3) := by
  constructor
  · intro hexc
    simp only [CropResize]
    rw [if_neg (by omega)]
  · intro res h
    rcases bb with _ | b
    · simp only [CropResize] at h
      split_ifs at h with hval hk
      rw [Except.ok.injEq] at h
      subst h
      exact ⟨rfl, rfl, rfl, rfl⟩
    · simp only [CropResize] at h
      split_ifs at h

/-- Witness for `cropResize_fill_exceeds_crop`: both conjuncts instantiated —
fill 5 against crop 3 on the left edge errors, and with fills `[1, 0, 2, 0]`
against crops `(3, 4, 5, 6)` the effective crops are `(2, 4, 3, 6)`. -/
theorem cropResize_fill_exceeds_crop_witness :
    (CropResize 100 100 ClipExpr.source none none 3 4 5 6 none [5, 0, 0, 0]
        none "spline36" = .error "CropResize: filling exceeds cropping.") ∧
    ∀ res, CropResize 100 100 ClipExpr.source none none 3 4 5 6 none [1, 0, 2, 0]
        none "spline36" = .ok res →
      res.effLeft = 3 - 1 ∧ res.effRight = 4 - 0 ∧ res.effTop = 5 - 2 ∧
        res.effBottom = 6 - 0 :=
  ⟨(cropResize_fill_exceeds_crop 100 100 ClipExpr.source none none 3 4 5 6 5 0 0 0
      none none "spline36").1 (by omega),
    (cropResize_fill_exceeds_crop 100 100 ClipExpr.source none none 3 4 5 6 1 0 2 0
      none none "spline36").2⟩

/-- C6: in `CropResize` (awsmfunc.py lines 349-352 and 376-379), the
`std.Crop` step removes exactly the even part of each fill-reduced crop
amount (the amount minus its parity remainder `% 2`), the edge-replication
`fb.FillBorders` step receives the parity remainder plus the requested fill
amount for that edge, and consequently the width/height change of the crop
step is even on every edge (and per dimension). -/
theorem cropResize_parity_split (cw ch : ℤ) (c : ClipExpr)
    (width height : Option ℤ) (left right top bottom f0 f1 f2 f3 : ℤ)
    (bb : Option (List ℤ)) (cfill : Option (List ℤ)) (resizer : String)
    (res : CRResult)
    (h : CropResize cw ch c width height left right top bottom bb [f0, f1, f2, f3]
      cfill resizer = .ok res) :
    (res.cropLeft = (left - f0) - (left - f0) % 2 ∧
      res.cropRight = (right - f1) - (right - f1) % 2 ∧
      res.cropTop = (top - f2) - (top - f2) % 2 ∧
      res.cropBottom = (bottom - f3) - (bottom - f3) % 2) ∧
    (res.fbLeft = (left - f0) % 2 + f0 ∧ res.fbRight = (right - f1) % 2 + f1 ∧
      res.fbTop = (top - f2) % 2 + f2 ∧ res.fbBottom = (bottom - f3) % 2 + f3) ∧
    (res.cropLeft % 2 = 0 ∧ res.cropRight % 2 = 0 ∧
      res.cropTop % 2 = 0 ∧ res.cropBottom % 2 = 0 ∧
      (res.cropLeft + res.cropRight) % 2 = 0 ∧
      (res.cropTop + res.cropBottom) % 2 = 0) := by
  rcases bb with _ | b
  · simp only [CropResize] at h
    split_ifs at h with hval hk
    rw [Except.ok.injEq] at h
    subst h
    refine ⟨⟨rfl, rfl, rfl, rfl⟩, ⟨rfl, rfl, rfl, rfl⟩, ?_⟩
    dsimp only
    omega
  · simp only [CropResize] at h
    split_ifs at h

/-- Witness for `cropResize_parity_split`: the concrete result of
`CropResize` on a 100×100 clip with odd crops `(3, 4, 5, 6)` and fills
`[1, 0, 2, 0]`. -/
theorem cropResize_parity_split_witness :
    ((⟨2, 4, 3, 6, 2, 4, 2, 6, 1, 0, 3, 0, 94, 92,
        ClipExpr.resample
          (ClipExpr.fillBorders (ClipExpr.crop ClipExpr.source 2 4 2 6) 1 0 3 0)
          "spline36" 94 92 0 1 94 91⟩ : CRResult).cropLeft =
          ((3 : ℤ) - 1) - (3 - 1) % 2 ∧
      (⟨2, 4, 3, 6, 2, 4, 2, 6, 1, 0, 3, 0, 94, 92,
        ClipExpr.resample
          (ClipExpr.fillBorders (ClipExpr.crop ClipExpr.source 2 4 2 6) 1 0 3 0)
          "spline36" 94 92 0 1 94 91⟩ : CRResult).cropRight =
          ((4 : ℤ) - 0) - (4 - 0) % 2 ∧
      (⟨2, 4, 3, 6, 2, 4, 2, 6, 1, 0, 3, 0, 94, 92,
        ClipExpr.resample
          (ClipExpr.fillBorders (ClipExpr.crop ClipExpr.source 2 4 2 6) 1 0 3 0)
          "spline36" 94 92 0 1 94 91⟩ : CRResult).cropTop =
          ((5 : ℤ) - 2) - (5 - 2) % 2 ∧
      (⟨2, 4, 3, 6, 2, 4, 2, 6, 1, 0, 3, 0, 94, 92,
        ClipExpr.resample
          (ClipExpr.fillBorders (ClipExpr.crop ClipExpr.source 2 4 2 6) 1 0 3 0)
          "spline36" 94 92 0 1 94 91⟩ : CRResult).cropBottom =
          ((6 : ℤ) - 0) - (6 - 0) % 2) ∧
    ((⟨2, 4, 3, 6, 2, 4, 2, 6, 1, 0, 3, 0, 94, 92,
        ClipExpr.resample
          (ClipExpr.fillBorders (ClipExpr.crop ClipExpr.source 2 4 2 6) 1 0 3 0)
          "spline36" 94 92 0 1 94 91⟩ : CRResult).fbLeft = ((3 : ℤ) - 1) % 2 + 1 ∧
      (⟨2, 4, 3, 6, 2, 4, 2, 6, 1, 0, 3, 0, 94, 92,
        ClipExpr.resample
          (ClipExpr.fillBorders (ClipExpr.crop ClipExpr.source 2 4 2 6) 1 0 3 0)
          "spline36" 94 92 0 1 94 91⟩ : CRResult).fbRight = ((4 : ℤ) - 0) % 2 + 0 ∧
      (⟨2, 4, 3, 6, 2, 4, 2, 6, 1, 0, 3, 0, 94, 92,
        ClipExpr.resample
          (ClipExpr.fillBorders (ClipExpr.crop ClipExpr.source 2 4 2 6) 1 0 3 0)
          "spline36" 94 92 0 1 94 91⟩ : CRResult).fbTop = ((5 : ℤ) - 2) % 2 + 2 ∧
      (⟨2, 4, 3, 6, 2, 4, 2, 6, 1, 0, 3, 0, 94, 92,
        ClipExpr.resample
          (ClipExpr.fillBorders (ClipExpr.crop ClipExpr.source 2 4 2 6) 1 0 3 0)
          "spline36" 94 92 0 1 94 91⟩ : CRResult).fbBottom = ((6 : ℤ) - 0) % 2 + 0) ∧
    ((⟨2, 4, 3, 6, 2, 4, 2, 6, 1, 0, 3, 0, 94, 92,
        ClipExpr.resample
          (ClipExpr.fillBorders (ClipExpr.crop ClipExpr.source 2 4 2 6) 1 0 3 0)
          "spline36" 94 92 0 1 94 91⟩ : CRResult).cropLeft % 2 = 0 ∧
      (⟨2, 4, 3, 6, 2, 4, 2, 6, 1, 0, 3, 0, 94, 92,
        ClipExpr.resample
          (ClipExpr.fillBorders (ClipExpr.crop ClipExpr.source 2 4 2 6) 1 0 3 0)
          "spline36" 94 92 0 1 94 91⟩ : CRResult).cropRight % 2 = 0 ∧
      (⟨2, 4, 3, 6, 2, 4, 2, 6, 1, 0, 3, 0, 94, 92,
        ClipExpr.resample
          (ClipExpr.fillBorders (ClipExpr.crop ClipExpr.source 2 4 2 6) 1 0 3 0)
          "spline36" 94 92 0 1 94 91⟩ : CRResult).cropTop % 2 = 0 ∧
      (⟨2, 4, 3, 6, 2, 4, 2, 6, 1, 0, 3, 0, 94, 92,
        ClipExpr.resample
          (ClipExpr.fillBorders (ClipExpr.crop ClipExpr.source 2 4 2 6) 1 0 3 0)
          "spline36" 94 92 0 1 94 91⟩ : CRResult).cropBottom % 2 = 0 ∧
      ((⟨2, 4, 3, 6, 2, 4, 2, 6, 1, 0, 3, 0, 94, 92,
        ClipExpr.resample
          (ClipExpr.fillBorders (ClipExpr.crop ClipExpr.source 2 4 2 6) 1 0 3 0)
          "spline36" 94 92 0 1 94 91⟩ : CRResult).cropLeft +
        (⟨2, 4, 3, 6, 2, 4, 2, 6, 1, 0, 3, 0, 94, 92,
        ClipExpr.resample
          (ClipExpr.fillBorders (ClipExpr.crop ClipExpr.source 2 4 2 6) 1 0 3 0)
          "spline36" 94 92 0 1 94 91⟩ : CRResult).cropRight) % 2 = 0 ∧
      ((⟨2, 4, 3, 6, 2, 4, 2, 6, 1, 0, 3, 0, 94, 92,
        ClipExpr.resample
          (ClipExpr.fillBorders (ClipExpr.crop ClipExpr.source 2 4 2 6) 1 0 3 0)
          "spline36" 94 92 0 1 94 91⟩ : CRResult).cropTop +
        (⟨2, 4, 3, 6, 2, 4, 2, 6, 1, 0, 3, 0, 94, 92,
        ClipExpr.resample
          (ClipExpr.fillBorders (ClipExpr.crop ClipExpr.source 2 4 2 6) 1 0 3 0)
          "spline36" 94 92 0 1 94 91⟩ : CRResult).cropBottom) % 2 = 0) :=
  cropResize_parity_split 100 100 ClipExpr.source none none 3 4 5 6 1 0 2 0
    none none "spline36"
    ⟨2, 4, 3, 6, 2, 4, 2, 6, 1, 0, 3, 0, 94, 92,
      ClipExpr.resample
        (ClipExpr.fillBorders (ClipExpr.crop ClipExpr.source 2 4 2 6) 1 0 3 0)
        "spline36" 94 92 0 1 94 91⟩
    (by decide)

/-- C7 (counterexample): with both target dimensions omitted but a nonzero
crop, the output dimensions of `CropResize` are not the input dimensions:
on a 100×100 clip with `left=10` the resize target is 90×100. -/
theorem cropResize_dims_counterexample :
    (CropResize 100 100 ClipExpr.source none none 10 0 0 0 none [0, 0, 0, 0]
        none "spline36").map (fun res => (res.w, res.h)) = .ok ((90 : ℤ), (100 : ℤ)) ∧
    ¬ (((90 : ℤ), (100 : ℤ)) = ((100 : ℤ), (100 : ℤ))) := by
  constructor
  · decide
  · decide

/-- C7 (amended): when both target dimensions are omitted, the output
dimensions of `CropResize` (awsmfunc.py lines 354-357 and 366-367) are the
crop-reduced input dimensions rounded to the nearest even integer
(`round(x / 2) * 2`, ties to even); in particular they equal the input
dimensions exactly when the fill-reduced crops vanish and the input
dimension is even, but not in general. -/
theorem cropResize_dims_amended (cw ch : ℤ) (c : ClipExpr)
    (left right top bottom f0 f1 f2 f3 : ℤ) (bb : Option (List ℤ))
    (cfill : Option (List ℤ)) (resizer : String) (res : CRResult)
    (h : CropResize cw ch c none none left right top bottom bb [f0, f1, f2, f3]
      cfill resizer = .ok res) :
    (res.w = roundHalfEvenDiv (cw - (left - f0) - (right - f1)) 2 * 2 ∧
      res.h = roundHalfEvenDiv (ch - (top - f2) - (bottom - f3)) 2 * 2) ∧
    ((left - f0) + (right - f1) = 0 → cw % 2 = 0 → res.w = cw) ∧
    ((top - f2) + (bottom - f3) = 0 → ch % 2 = 0 → res.h = ch) := by
  rcases bb with _ | b
  · simp only [CropResize] at h
    split_ifs at h with hval hk
    rw [Except.ok.injEq] at h
    subst h
    have hw : roundHalfEvenDiv ((cw - (left - f0) - (right - f1)) *
          (crRatios cw ch none none (left - f0) (right - f1) (top - f2) (bottom - f3)).1)
        (2 * (crRatios cw ch none none (left - f0) (right - f1) (top - f2)
          (bottom - f3)).2.1) * 2 =
        roundHalfEvenDiv (cw - (left - f0) - (right - f1)) 2 * 2 := by
      simp [crRatios]
    have hh : roundHalfEvenDiv ((ch - (top - f2) - (bottom - f3)) *
          (crRatios cw ch none none (left - f0) (right - f1) (top - f2)
            (bottom - f3)).2.2.1)
        (2 * (crRatios cw ch none none (left - f0) (right - f1) (top - f2)
          (bottom - f3)).2.2.2) * 2 =
        roundHalfEvenDiv (ch - (top - f2) - (bottom - f3)) 2 * 2 := by
      simp [crRatios]
    refine ⟨⟨hw, hh⟩, fun h0 he => ?_, fun h0 he => ?_⟩
    · dsimp only
      rw [hw]
      have he2 : cw - (left - f0) - (right - f1) = cw := by omega
      rw [he2]
      exact roundHalfEvenDiv_two_even he
    · dsimp only
      rw [hh]
      have he2 : ch - (top - f2) - (bottom - f3) = ch := by omega
      rw [he2]
      exact roundHalfEvenDiv_two_even he
  · simp only [CropResize] at h
    split_ifs at h

/-- Witness for `cropResize_dims_amended`: the concrete result of
`CropResize` on a 100×100 clip with crops `(10, 0, 4, 0)` and no fill. -/
theorem cropResize_dims_amended_witness :
    ((⟨10, 0, 4, 0, 10, 0, 4, 0, 0, 0, 0, 0, 90, 96,
        ClipExpr.resample
          (ClipExpr.fillBorders (ClipExpr.crop ClipExpr.source 10 0 4 0) 0 0 0 0)
          "spline36" 90 96 0 0 90 96⟩ : CRResult).w =
          roundHalfEvenDiv (100 - ((10 : ℤ) - 0) - (0 - 0)) 2 * 2 ∧
      (⟨10, 0, 4, 0, 10, 0, 4, 0, 0, 0, 0, 0, 90, 96,
        ClipExpr.resample
          (ClipExpr.fillBorders (ClipExpr.crop ClipExpr.source 10 0 4 0) 0 0 0 0)
          "spline36" 90 96 0 0 90 96⟩ : CRResult).h =
          roundHalfEvenDiv (100 - ((4 : ℤ) - 0) - (0 - 0)) 2 * 2) ∧
    (((10 : ℤ) - 0) + (0 - 0) = 0 → (100 : ℤ) % 2 = 0 →
      (⟨10, 0, 4, 0, 10, 0, 4, 0, 0, 0, 0, 0, 90, 96,
        ClipExpr.resample
          (ClipExpr.fillBorders (ClipExpr.crop ClipExpr.source 10 0 4 0) 0 0 0 0)
          "spline36" 90 96 0 0 90 96⟩ : CRResult).w = 100) ∧
    (((4 : ℤ) - 0) + (0 - 0) = 0 → (100 : ℤ) % 2 = 0 →
      (⟨10, 0, 4, 0, 10, 0, 4, 0, 0, 0, 0, 0, 90, 96,
        ClipExpr.resample
          (ClipExpr.fillBorders (ClipExpr.crop ClipExpr.source 10 0 4 0) 0 0 0 0)
          "spline36" 90 96 0 0 90 96⟩ : CRResult).h = 100) :=
  cropResize_dims_amended 100 100 ClipExpr.source 10 0 4 0 0 0 0 0
    none none "spline36"
    ⟨10, 0, 4, 0, 10, 0, 4, 0, 0, 0, 0, 0, 90, 96,
      ClipExpr.resample
        (ClipExpr.fillBorders (ClipExpr.crop ClipExpr.source 10 0 4 0) 0 0 0 0)
        "spline36" 90 96 0 0 90 96⟩
    (by decide)

/-- C8: requesting a dirty-border-avoidance border of (even, positive)
thickness 2 on the right edge raises a `TypeError` instead of producing the
mirrored/desaturated/brightness-matched border the claim describes: the
brightness-match step calls `FixColumnBrightness(clip=stack,
column=clip.width, input_low=16, input_high=255, output_low=16,
output_high=16, scale_inputs=True)` (awsmfunc.py lines 281-284), but
`FixColumnBrightness` (line 29) accepts only `(clip, column, min_in, max_in,
min_out, max_out)`.  The same holds for `top` and `bottom` via
`FixRowBrightness`; only the left edge works, and it receives a plain
`AddBorders` with none of the claimed treatment. -/
theorem blackBorders_right_typeerror :
    BlackBorders ClipExpr.source 0 2 0 0 =
      .error "TypeError: FixColumnBrightness() got an unexpected keyword argument input_low" := by
  decide

/-- C9: in the fill-small-borders block of `CropResizeReader` (lines
565-587), for every edge whose zone crop amount is positive and at most
`fill_max`, the resulting pipeline state has that edge's effective crop set
to 0, contains an edge-replication fill node for exactly that amount on that
edge, and — when a bbmod parameter list (always of length 6 at this point)
is present — has that edge's border-balancing thickness increased by the
filled amount, the other entries at their prior values. -/
theorem fillMax_fills_and_zeroes (fillMax cl cr ct cb : ℤ) (b : List ℤ)
    (hb : b.length = 6) (clip : ClipExpr) :
    (0 < cl ∧ cl ≤ fillMax →
      (applyFillMax fillMax cl cr ct cb (some b) clip).cl = 0 ∧
      hasFillNode cl 0 0 0 (applyFillMax fillMax cl cr ct cb (some b) clip).clip = true ∧
      ((applyFillMax fillMax cl cr ct cb (some b) clip).bbtemp.map
        (fun l => l.getD 0 0)) = some (b.getD 0 0 + cl)) ∧
    (0 < cr ∧ cr ≤ fillMax →
      (applyFillMax fillMax cl cr ct cb (some b) clip).cr = 0 ∧
      hasFillNode 0 cr 0 0 (applyFillMax fillMax cl cr ct cb (some b) clip).clip = true ∧
      ((applyFillMax fillMax cl cr ct cb (some b) clip).bbtemp.map
        (fun l => l.getD 1 0)) = some (b.getD 1 0 + cr)) ∧
    (0 < ct ∧ ct ≤ fillMax →
      (applyFillMax fillMax cl cr ct cb (some b) clip).ct = 0 ∧
      hasFillNode 0 0 ct 0 (applyFillMax fillMax cl cr ct cb (some b) clip).clip = true ∧
      ((applyFillMax fillMax cl cr ct cb (some b) clip).bbtemp.map
        (fun l => l.getD 2 0)) = some (b.getD 2 0 + ct)) ∧
    (0 < cb ∧ cb ≤ fillMax →
      (applyFillMax fillMax cl cr ct cb (some b) clip).cb = 0 ∧
      hasFillNode 0 0 0 cb (applyFillMax fillMax cl cr ct cb (some b) clip).clip = true ∧
      ((applyFillMax fillMax cl cr ct cb (some b) clip).bbtemp.map
        (fun l => l.getD 3 0)) = some (b.getD 3 0 + cb)) := by
  rcases b with _ | ⟨b0, _ | ⟨b1, _ | ⟨b2, _ | ⟨b3, _ | ⟨b4, _ | ⟨b5, _ | tl⟩⟩⟩⟩⟩⟩ <;>
    simp only [List.length] at hb
  all_goals try omega
  by_cases h1 : 0 < cl ∧ cl ≤ fillMax <;>
    by_cases h2 : 0 < cr ∧ cr ≤ fillMax <;>
      by_cases h3 : 0 < ct ∧ ct ≤ fillMax <;>
        by_cases h4 : 0 < cb ∧ cb ≤ fillMax <;>
          simp [applyFillMax, h1, h2, h3, h4, hasFillNode, List.getD, List.set]

/-- Witness for `fillMax_fills_and_zeroes`: `fill_max = 2`, a zone with
left crop 1 (filled) and a bbmod list `[3, 0, 0, 0, 128, 999]`. -/
theorem fillMax_fills_and_zeroes_witness :
    (applyFillMax 2 1 0 0 0 (some [3, 0, 0, 0, 128, 999]) ClipExpr.source).cl = 0 ∧
    hasFillNode 1 0 0 0
      (applyFillMax 2 1 0 0 0 (some [3, 0, 0, 0, 128, 999]) ClipExpr.source).clip = true ∧
    ((applyFillMax 2 1 0 0 0 (some [3, 0, 0, 0, 128, 999]) ClipExpr.source).bbtemp.map
      (fun l => l.getD 0 0)) = some ((3 : ℤ) + 1) :=
  by
    have h := (fillMax_fills_and_zeroes 2 1 0 0 0 [3, 0, 0, 0, 128, 999]
      (by decide) ClipExpr.source).1 ⟨by decide, by decide⟩
    simpa using h

set_option maxHeartbeats 4000000 in
/-- C2: the overlap scenario of the claim — a 1920×1080 clip, default
arguments, schedule rows `"0 99 10 10 10 10"` then `"40 59 20 20 20 20"` —
never reaches the frame-splicing stage: while building the first zone's
output, `BlackBorders(resizedcore, left=10, right=10, top=10, bottom=10)`
(line 601) raises `TypeError` at its `FixColumnBrightness` call
(lines 281-284 pass keyword arguments that `FixColumnBrightness`, line 29,
does not accept), so the reader aborts and produces no frame at all.  The
splicing mechanism itself (`ReplaceFrames` at lines 604-605, folded in file
order) would implement exactly the claimed later-zone-wins behavior, but no
invocation with these crops can execute it. -/
theorem cropResizeReader_overlap_schedule_typeerror :
    CropResizeReader 1920 1080 none none [] [] 2 none [false, false, false, false]
        "spline36" [[0, 99, 10, 10, 10, 10], [40, 59, 20, 20, 20, 20]] =
      .error "TypeError: FixColumnBrightness() got an unexpected keyword argument input_low" := by
  decide

lemma processZone_uncovered (cw ch : ℤ) (d : ReaderDims) (rows cols : List (ℤ × ℤ))
    (fixUncrop : List Bool) (fillMax : ℤ) (bb : Option (List ℤ)) (resizer : String)
    (st st' : ClipExpr × ClipExpr) (zone : List ℤ) (n : ℤ)
    (h : processZone cw ch d rows cols fixUncrop fillMax bb resizer st zone = .ok st')
    (hz : ¬ (zone.getD 0 0 ≤ n ∧ n ≤ zone.getD 1 0)) :
    frameAt st'.1 n = frameAt st.1 n := by
  simp only [processZone] at h
  split at h
  · exact absurd h (by simp)
  · rw [Except.ok.injEq] at h
    subst h
    dsimp only
    simp only [frameAt]
    rw [if_neg hz]

lemma readerLoop_uncovered (cw ch : ℤ) (d : ReaderDims) (rows cols : List (ℤ × ℤ))
    (fixUncrop : List Bool) (fillMax : ℤ) (bb : Option (List ℤ)) (resizer : String)
    (n : ℤ) :
    ∀ (zones : List (List ℤ)) (st st' : ClipExpr × ClipExpr),
      readerLoop cw ch d rows cols fixUncrop fillMax bb resizer st zones = .ok st' →
      (∀ z ∈ zones, ¬ (z.getD 0 0 ≤ n ∧ n ≤ z.getD 1 0)) →
      frameAt st'.1 n = frameAt st.1 n := by
  intro zones
  induction zones with
  | nil =>
    intro st st' h _
    rw [readerLoop, Except.ok.injEq] at h
    subst h
    rfl
  | cons z zs ih =>
    intro st st' h hz
    rw [readerLoop] at h
    split at h
    · exact absurd h (by simp)
    · rename_i st1 hpz
      calc frameAt st'.1 n
          = frameAt st1.1 n := ih st1 st' h (fun z' hz' => hz z' (List.mem_cons_of_mem _ hz'))
        _ = frameAt st.1 n :=
          processZone_uncovered cw ch d rows cols fixUncrop fillMax bb resizer
            st st1 z n hpz (hz z (List.mem_cons_self _ _))

/-- C10: whenever `CropResizeReader` returns a clip, every output frame at
an index not covered by any schedule row's inclusive `[start, end]` interval
is the frame of `core.resize.Spline36(filtered, width, height)` (line 512)
— the Spline36 kernel applied to the whole (here un-balanced, since a bbmod
argument aborts the reader) input clip at the resolved output size,
unconditionally: the conclusion does not mention the `resizer` argument, so
the caller's kernel selection only ever affects frames inside zones (where
it is passed to `CropResize`, line 597). -/
theorem cropResizeReader_uncovered_spline36 (cw ch : ℤ) (width height : Option ℤ)
    (rows cols : List (ℤ × ℤ)) (fillMax : ℤ) (bb : Option (List ℤ))
    (fixUncrop : List Bool) (resizer : String) (zones : List (List ℤ))
    (e : ClipExpr) (n : ℤ)
    (hok : CropResizeReader cw ch width height rows cols fillMax bb fixUncrop
      resizer zones = .ok e)
    (hn : ∀ z ∈ zones, ¬ (z.getD 0 0 ≤ n ∧ n ≤ z.getD 1 0)) :
    frameAt e n = ClipExpr.spline36Resize ClipExpr.source
      (readerDims cw ch width height).W (readerDims cw ch width height).H := by
  rcases bb with _ | b
  · simp only [CropResizeReader] at hok
    split_ifs at hok
    split at hok
    · exact absurd hok (by simp)
    · rename_i st hloop
      rw [Except.ok.injEq] at hok
      subst hok
      exact readerLoop_uncovered cw ch (readerDims cw ch width height) rows cols
        fixUncrop fillMax none resizer n zones _ st hloop hn
  · simp only [CropResizeReader] at hok
    split_ifs at hok

/-- Witness for `cropResizeReader_uncovered_spline36`: a 1920×1080 clip with
the single zone `"0 9 1 1 1 1"` (crops within the default `fill_max = 2`, so
the zone is filled rather than cropped and the reader succeeds); the frame
at the uncovered index 50 is the Spline36-resampled base clip. -/
theorem cropResizeReader_uncovered_spline36_witness :
    frameAt
      (ClipExpr.replaceFrames (ClipExpr.spline36Resize ClipExpr.source 1920 1080)
        (ClipExpr.resample
          (ClipExpr.fillBorders
            (ClipExpr.crop
              (ClipExpr.fillBorders
                (ClipExpr.fillBorders
                  (ClipExpr.fillBorders
                    (ClipExpr.fillBorders ClipExpr.source 1 0 0 0) 0 1 0 0) 0 0 1 0)
                0 0 0 1)
              0 0 0 0)
            0 0 0 0)
          "spline36" 1920 1080 0 0 1920 1080)
        0 9)
      50 =
      ClipExpr.spline36Resize ClipExpr.source
        (readerDims 1920 1080 none none).W (readerDims 1920 1080 none none).H :=
  cropResizeReader_uncovered_spline36 1920 1080 none none [] [] 2 none
    [false, false, false, false] "spline36" [[0, 9, 1, 1, 1, 1]] _ 50
    (by decide) (by decide)
